import Mathlib

/-!
Shallow embedding of the Drain Guard dashboard (`frontend.py`).

The program loads two serialized artifacts (a classifier and a feature
scaler), assembles one fixed-schema sensor reading into a five-column
feature frame, scales it, predicts a binary status, maps label 0 to
BLOCKED and any other label to NORMAL, and reports a confidence value
(the maximum class probability when the classifier supports it, a fixed
0.98 / 0.85 placeholder otherwise).

Python floats are embedded as rationals; the opaque scaler and classifier
artifacts are embedded as records of functions whose fallible calls
return values in `Except String`.
-/

namespace DrainGuard

/-- One cell of the input frame: Python `int(...)` produces an integer,
`float(...)` produces a float (embedded as a rational). -/
inductive FeatureValue
  | int (n : ℤ)
  | float (q : ℚ)
deriving DecidableEq

/-- Python `int(b)` on a boolean: `True` is 1, `False` is 0. -/
def pyInt (b : Bool) : ℤ := if b then 1 else 0

/-- The sidebar inputs of one interaction, with the source's variable
names: toggles `gas_val`, `rain_val`, `wf_val`, the float slider
`temp_val`, and the integer slider `water_dist`. -/
structure SensorReading where
  gas_val : Bool
  rain_val : Bool
  temp_val : ℚ
  water_dist : ℤ
  wf_val : Bool

/-- The single-row DataFrame built at lines 135-141 of `frontend.py`:
column names and order exactly as in the source, booleans through
`int(...)`, numeric fields through `float(...)`. -/
def input_data (r : SensorReading) : List (String × FeatureValue) :=
  [("gas_value", FeatureValue.int (pyInt r.gas_val)),
   ("rain_value", FeatureValue.int (pyInt r.rain_val)),
   ("temp_value", FeatureValue.float r.temp_val),
   ("water_dist", FeatureValue.float (r.water_dist : ℚ)),
   ("wf_value", FeatureValue.int (pyInt r.wf_val))]

/-- The numeric row a frame presents to the scaler (ints are widened to
floats when the scaler consumes the frame). -/
def featureValues (cols : List (String × FeatureValue)) : List ℚ :=
  cols.map (fun c => match c.2 with
    | FeatureValue.int n => (n : ℚ)
    | FeatureValue.float q => q)

/-- The opaque fitted scaler artifact: its `transform` is a deterministic
function of the input frame that may raise (embedded as
`Except.error`). -/
structure Scaler where
  transform : List (String × FeatureValue) → Except String (List ℚ)

/-- The opaque classifier artifact: `predict` returns an array of labels,
`predict_proba` an array of probability rows; either call may raise. -/
structure Model where
  predict : List ℚ → Except String (List ℤ)
  predict_proba : List ℚ → Except String (List (List ℚ))

/-- Python `xs[0]`: raises `IndexError` on an empty sequence. -/
def pyIndex0 {α : Type} : List α → Except String α
  | [] => Except.error "IndexError"
  | x :: _ => Except.ok x

/-- Python `max(xs)`: the left fold of binary max over a nonempty
sequence; raises `ValueError` on an empty one. -/
def pyMax : List ℚ → Except String ℚ
  | [] => Except.error "ValueError"
  | x :: xs => Except.ok (xs.foldl max x)

/-- The two displayed statuses. -/
inductive Status
  | BLOCKED
  | NORMAL
deriving DecidableEq

/-- Lines 151-160: `if prediction == 0` yields BLOCKED, the `else` branch
yields NORMAL. -/
def status_of_prediction (p : ℤ) : Status :=
  if p = 0 then Status.BLOCKED else Status.NORMAL

/-- Lines 211-218: start from the mock placeholder (0.98 for NORMAL,
0.85 for BLOCKED), then try `probs = model.predict_proba(scaled)[0];
confidence = max(probs)`; any exception in that inner block is swallowed
by `except: pass`, keeping the placeholder. -/
def confidence_of (m : Model) (scaled : List ℚ) (status : Status) : ℚ :=
  let mock : ℚ := if status = Status.NORMAL then 98 / 100 else 85 / 100
  match m.predict_proba scaled with
  | Except.error _ => mock
  | Except.ok pss =>
    match pyIndex0 pss with
    | Except.error _ => mock
    | Except.ok ps =>
      match pyMax ps with
      | Except.error _ => mock
      | Except.ok c => c

/-- What one interaction renders: a prediction result, the caught-error
banner of the outer `except` (line 227), or the model-not-loaded warning
(line 230). -/
inductive RenderOutput
  | result (status : Status) (confidence : ℚ)
  | errorMsg (msg : String)
  | warning (msg : String)
deriving DecidableEq

/-- The `try` block at lines 144-223: scale the frame, take
`model.predict(scaled)[0]`, map the label to a status, attach the
confidence; any exception in scaling, prediction or indexing reaches the
outer `except` and becomes the error banner. -/
def prediction_block (m : Model) (s : Scaler) (r : SensorReading) : RenderOutput :=
  match s.transform (input_data r) with
  | Except.error e => RenderOutput.errorMsg ("Prediction System Error: " ++ e)
  | Except.ok scaled =>
    match m.predict scaled with
    | Except.error e => RenderOutput.errorMsg ("Prediction System Error: " ++ e)
    | Except.ok preds =>
      match pyIndex0 preds with
      | Except.error e => RenderOutput.errorMsg ("Prediction System Error: " ++ e)
      | Except.ok p =>
        RenderOutput.result (status_of_prediction p)
          (confidence_of m scaled (status_of_prediction p))

/-- The environment `load_artifacts` observes: whether each artifact file
exists, and what deserializing each would yield (a value, or the raised
exception as `Except.error`). -/
structure ArtifactEnv where
  model_exists : Bool
  scaler_exists : Bool
  load_model : Except String Model
  load_scaler : Except String Scaler

/-- Lines 82-99: inside a `try`, return `(None, None)` if either file is
missing; otherwise load the model then the scaler; any exception is
caught and also yields `(None, None)`. -/
def load_artifacts (env : ArtifactEnv) : Option Model × Option Scaler :=
  if !env.model_exists || !env.scaler_exists then (none, none)
  else
    match env.load_model with
    | Except.error _ => (none, none)
    | Except.ok m =>
      match env.load_scaler with
      | Except.error _ => (none, none)
      | Except.ok s => (some m, some s)

/-- Lines 132 and 229-230, parametrized by the body of the `if`: run the
given block only when both artifacts loaded, otherwise show the warning.
-/
def main_with (block : Model → Scaler → SensorReading → RenderOutput)
    (env : ArtifactEnv) (r : SensorReading) : RenderOutput :=
  match load_artifacts env with
  | (some m, some s) => block m s r
  | _ => RenderOutput.warning "Model not loaded. Please check server logs."

/-- One full interaction: the artifact guard around the prediction block.
-/
def main_render (env : ArtifactEnv) (r : SensorReading) : RenderOutput :=
  main_with prediction_block env r

/-- Two consecutive interactions against the same cached artifacts
(`st.cache_resource` loads them once per process). -/
def session2 (env : ArtifactEnv) (r₁ r₂ : SensorReading) :
    RenderOutput × RenderOutput :=
  (main_render env r₁, main_render env r₂)

/-- A scaler whose transform succeeds, used as a concrete test artifact
in witnesses. -/
def dummyScaler : Scaler :=
  ⟨fun cols => Except.ok (featureValues cols)⟩

/-- A classifier without probability support, used as a concrete test
artifact in witnesses. -/
def dummyModel : Model :=
  ⟨fun _ => Except.ok [1], fun _ => Except.error "AttributeError"⟩

/-- A scaler whose transform always raises, used to exercise the error
path. -/
def failingScaler : Scaler :=
  ⟨fun _ => Except.error "shape mismatch"⟩

/-- A classifier whose predicted label does not attain the maximal class
probability: it predicts label 0 while reporting the probability row
[0.3, 0.7]. -/
def cexModel : Model :=
  ⟨fun _ => Except.ok [0], fun _ => Except.ok [[3 / 10, 7 / 10]]⟩

/-- A probability-supporting classifier whose predicted label 1 attains
the maximal probability of its row [0.25, 0.75]. -/
def probaModel : Model :=
  ⟨fun _ => Except.ok [1], fun _ => Except.ok [[1 / 4, 3 / 4]]⟩

/-- The documented reference normal reading: toxicGas=false,
isRaining=false, temperatureCelsius=25.0, waterDistanceMm=792,
waterFlowing=true. -/
def referenceReading : SensorReading :=
  ⟨false, false, 25, 792, true⟩

/-- Modelled from the spec: the shipped artifact `scaler.pkl` is an
opaque binary blob absent from src/. The spec fixes only that it is a
deterministic transform of the feature vector; it is modelled here as
the transform that presents the numeric feature row unchanged. -/
def shippedScaler : Scaler :=
  ⟨fun cols => Except.ok (featureValues cols)⟩

/-- Modelled from the spec: the shipped artifact `drain_status_model.pkl`
is an opaque binary blob absent from src/. The spec documents that on
the reference normal reading the classifier outputs label 1, so it is
modelled as predicting 1 exactly on the scaled reference vector. -/
def shippedModel : Model :=
  ⟨fun v =>
      Except.ok [if v = featureValues (input_data referenceReading) then 1 else 0],
   fun _ => Except.error "AttributeError"⟩

/-- C1: label 0 maps to BLOCKED, label 1 to NORMAL, and whenever an
interaction's scaling and prediction succeed the rendered status is
exactly this mapping applied to the classifier's first output label. -/
theorem label_mapping_fixed :
    status_of_prediction 0 = Status.BLOCKED ∧
    status_of_prediction 1 = Status.NORMAL ∧
    ∀ (m : Model) (s : Scaler) (r : SensorReading) (scaled : List ℚ)
      (p : ℤ) (ps : List ℤ),
      s.transform (input_data r) = Except.ok scaled →
      m.predict scaled = Except.ok (p :: ps) →
      prediction_block m s r =
        RenderOutput.result (status_of_prediction p)
          (confidence_of m scaled (status_of_prediction p)) := by
  refine ⟨rfl, rfl, ?_⟩
  intro m s r scaled p ps h1 h2
  simp [prediction_block, h1, h2, pyIndex0]

/-- C1 witness: the mapping theorem applied to concrete artifacts that
predict label 1 on the reference reading. -/
theorem label_mapping_fixed_witness :
    dummyScaler.transform (input_data referenceReading) =
      Except.ok (featureValues (input_data referenceReading)) ∧
    dummyModel.predict (featureValues (input_data referenceReading)) =
      Except.ok [1] ∧
    prediction_block dummyModel dummyScaler referenceReading =
      RenderOutput.result (status_of_prediction 1)
        (confidence_of dummyModel (featureValues (input_data referenceReading))
          (status_of_prediction 1)) :=
  ⟨rfl, rfl,
    label_mapping_fixed.2.2 dummyModel dummyScaler referenceReading
      (featureValues (input_data referenceReading)) 1 [] rfl rfl⟩

/-- C2: for every reading, the frame handed to the scaler has exactly the
five columns gas, rain, temperature, water distance, water flow in that
order; the numeric row it presents lists the three boolean fields as 0/1
and the two numeric fields as floats; and every boolean encodes as 0 or
1. -/
theorem feature_vector_contract (r : SensorReading) :
    (input_data r).map Prod.fst =
      ["gas_value", "rain_value", "temp_value", "water_dist", "wf_value"] ∧
    (input_data r).map Prod.snd =
      [FeatureValue.int (pyInt r.gas_val), FeatureValue.int (pyInt r.rain_val),
       FeatureValue.float r.temp_val, FeatureValue.float (r.water_dist : ℚ),
       FeatureValue.int (pyInt r.wf_val)] ∧
    featureValues (input_data r) =
      [(pyInt r.gas_val : ℚ), (pyInt r.rain_val : ℚ), r.temp_val,
       (r.water_dist : ℚ), (pyInt r.wf_val : ℚ)] ∧
    ∀ b : Bool, pyInt b = 0 ∨ pyInt b = 1 := by
  refine ⟨rfl, rfl, rfl, ?_⟩
  intro b
  cases b
  · exact Or.inl rfl
  · exact Or.inr rfl

/-- C3: classification is deterministic and idempotent: with the same
loaded artifacts, equal readings render equal results, and running the
same reading twice in one session gives two identical results. -/
theorem classify_deterministic (env : ArtifactEnv) (r₁ r₂ : SensorReading)
    (h : r₁ = r₂) :
    main_render env r₁ = main_render env r₂ ∧
    session2 env r₁ r₂ = (main_render env r₁, main_render env r₁) := by
  subst h
  exact ⟨rfl, rfl⟩

/-- C3 witness: determinism applied at a concrete environment and the
reference reading. -/
theorem classify_deterministic_witness :
    referenceReading = referenceReading ∧
    main_render ⟨true, true, Except.ok dummyModel, Except.ok dummyScaler⟩
        referenceReading =
      main_render ⟨true, true, Except.ok dummyModel, Except.ok dummyScaler⟩
        referenceReading :=
  ⟨rfl,
    (classify_deterministic
      ⟨true, true, Except.ok dummyModel, Except.ok dummyScaler⟩
      referenceReading referenceReading rfl).1⟩

/-- C4: the loader is total on every environment, its only outcomes being
the unavailable pair or a fully loaded pair; a missing file or a raised
deserialization gives the unavailable pair; and a loaded pair appears
exactly when both files exist and both deserialize. -/
theorem load_artifacts_never_throws (env : ArtifactEnv) :
    (load_artifacts env = (none, none) ∨
      ∃ m s, load_artifacts env = (some m, some s)) ∧
    (env.model_exists = false ∨ env.scaler_exists = false →
      load_artifacts env = (none, none)) ∧
    (∀ e, env.load_model = Except.error e → load_artifacts env = (none, none)) ∧
    (∀ e, env.load_scaler = Except.error e → load_artifacts env = (none, none)) ∧
    (∀ m s, load_artifacts env = (some m, some s) ↔
      env.model_exists = true ∧ env.scaler_exists = true ∧
      env.load_model = Except.ok m ∧ env.load_scaler = Except.ok s) := by
  obtain ⟨me, se, lm, ls⟩ := env
  cases me <;> cases se <;> cases lm <;> cases ls <;>
    simp [load_artifacts]

/-- C4 witness: the loader theorem applied to an environment whose model
file is missing, yielding the unavailable pair. -/
theorem load_artifacts_never_throws_witness :
    ((false : Bool) = false ∨ (true : Bool) = false) ∧
    load_artifacts ⟨false, true, Except.ok dummyModel, Except.ok dummyScaler⟩ =
      (none, none) :=
  ⟨Or.inl rfl,
    (load_artifacts_never_throws
      ⟨false, true, Except.ok dummyModel, Except.ok dummyScaler⟩).2.1
      (Or.inl rfl)⟩

/-- C5: when loading returned the unavailable pair, the guarded main body
shows the model-not-loaded warning whatever classification block it
guards — so the pipeline is never invoked — and in particular the real
render does. -/
theorem unavailable_disables_inference
    (block : Model → Scaler → SensorReading → RenderOutput)
    (env : ArtifactEnv) (r : SensorReading)
    (h : load_artifacts env = (none, none)) :
    main_with block env r =
      RenderOutput.warning "Model not loaded. Please check server logs." ∧
    main_render env r =
      RenderOutput.warning "Model not loaded. Please check server logs." := by
  constructor
  · simp [main_with, h]
  · simp [main_render, main_with, h]

/-- C5 witness: with both artifact files missing, the main body guarding
an arbitrary poison block still renders only the warning. -/
theorem unavailable_disables_inference_witness :
    load_artifacts ⟨false, false, Except.error "m", Except.error "s"⟩ =
      (none, none) ∧
    main_with (fun _ _ _ => RenderOutput.result Status.BLOCKED 0)
        ⟨false, false, Except.error "m", Except.error "s"⟩ referenceReading =
      RenderOutput.warning "Model not loaded. Please check server logs." :=
  ⟨rfl,
    (unavailable_disables_inference
      (fun _ _ _ => RenderOutput.result Status.BLOCKED 0)
      ⟨false, false, Except.error "m", Except.error "s"⟩
      referenceReading rfl).1⟩

/-- C6: a raised scaling or prediction step becomes the human-readable
error banner naming the cause, the render of every interaction is a
defined value (never a crash), and the second interaction of a session
renders exactly as a fresh one with the same artifacts — earlier
failures leave them unchanged. -/
theorem prediction_failure_contained (m : Model) (s : Scaler)
    (r : SensorReading) (e : String) :
    (s.transform (input_data r) = Except.error e →
      prediction_block m s r =
        RenderOutput.errorMsg ("Prediction System Error: " ++ e)) ∧
    (∀ scaled, s.transform (input_data r) = Except.ok scaled →
      m.predict scaled = Except.error e →
      prediction_block m s r =
        RenderOutput.errorMsg ("Prediction System Error: " ++ e)) ∧
    (∀ env r₁ r₂, (session2 env r₁ r₂).2 = main_render env r₂) := by
  refine ⟨?_, ?_, fun _ _ _ => rfl⟩
  · intro h
    simp [prediction_block, h]
  · intro scaled h1 h2
    simp [prediction_block, h1, h2]

/-- C6 witness: containment applied to a scaler whose transform raises a
shape mismatch on the reference reading. -/
theorem prediction_failure_contained_witness :
    failingScaler.transform (input_data referenceReading) =
      Except.error "shape mismatch" ∧
    prediction_block dummyModel failingScaler referenceReading =
      RenderOutput.errorMsg ("Prediction System Error: " ++ "shape mismatch") :=
  ⟨rfl,
    (prediction_failure_contained dummyModel failingScaler referenceReading
      "shape mismatch").1 rfl⟩

/-- C8: when the probability call raises, the confidence is the fixed
placeholder of the returned status — 0.98 for NORMAL, 0.85 for BLOCKED —
and the rendered result carries exactly that placeholder. -/
theorem mock_confidence_without_proba (m : Model) (s : Scaler)
    (r : SensorReading) (scaled : List ℚ) (p : ℤ) (ps : List ℤ) (e : String)
    (hp : m.predict_proba scaled = Except.error e) :
    confidence_of m scaled Status.NORMAL = 98 / 100 ∧
    confidence_of m scaled Status.BLOCKED = 85 / 100 ∧
    (s.transform (input_data r) = Except.ok scaled →
      m.predict scaled = Except.ok (p :: ps) →
      prediction_block m s r =
        RenderOutput.result (status_of_prediction p)
          (if status_of_prediction p = Status.NORMAL
            then 98 / 100 else 85 / 100)) := by
  refine ⟨?_, ?_, ?_⟩
  · simp [confidence_of, hp]
  · simp [confidence_of, hp]
  · intro h1 h2
    simp [prediction_block, h1, h2, pyIndex0, confidence_of, hp]

/-- C8 witness: the placeholder theorem applied to a classifier whose
probability call raises AttributeError. -/
theorem mock_confidence_without_proba_witness :
    dummyModel.predict_proba (featureValues (input_data referenceReading)) =
      Except.error "AttributeError" ∧
    confidence_of dummyModel (featureValues (input_data referenceReading))
      Status.NORMAL = 98 / 100 :=
  ⟨rfl,
    (mock_confidence_without_proba dummyModel dummyScaler referenceReading
      (featureValues (input_data referenceReading)) 1 [] "AttributeError"
      rfl).1⟩

/-- C9: with the shipped artifacts as modelled from the spec, the
reference reading renders the NORMAL status (with the 0.98 placeholder,
as the modelled classifier lacks probability support). -/
theorem reference_normal_example :
    main_render ⟨true, true, Except.ok shippedModel, Except.ok shippedScaler⟩
        referenceReading =
      RenderOutput.result Status.NORMAL (98 / 100) := by
  simp [main_render, main_with, load_artifacts, prediction_block, shippedModel,
    shippedScaler, pyIndex0, confidence_of, status_of_prediction]

/-- C10: every first output label other than 0 — including labels outside
the documented set, such as 2 or -1 — renders as NORMAL, and a label
renders as BLOCKED exactly when it is 0. -/
theorem nonzero_label_renders_normal (p : ℤ) (h : p ≠ 0) :
    status_of_prediction p = Status.NORMAL ∧
    ∀ q : ℤ, status_of_prediction q = Status.BLOCKED ↔ q = 0 := by
  constructor
  · simp [status_of_prediction, h]
  · intro q
    by_cases hq : q = 0 <;> simp [status_of_prediction, hq]

/-- C10 witness: the out-of-set label 2 renders as NORMAL. -/
theorem nonzero_label_renders_normal_witness :
    (2 : ℤ) ≠ 0 ∧ status_of_prediction 2 = Status.NORMAL :=
  ⟨by decide, (nonzero_label_renders_normal 2 (by decide)).1⟩

/-- Python max of a nonempty sequence is one of its elements. -/
lemma foldl_max_mem (x : ℚ) (xs : List ℚ) : xs.foldl max x ∈ x :: xs := by
  induction xs generalizing x with
  | nil => simp
  | cons y ys ih =>
    rw [List.foldl_cons]
    rcases max_choice x y with hm | hm <;> rw [hm]
    · have h := ih x
      simp only [List.mem_cons] at h ⊢
      tauto
    · have h := ih y
      simp only [List.mem_cons] at h ⊢
      tauto

/-- Python max of a nonempty sequence bounds every element. -/
lemma le_foldl_max (x : ℚ) (xs : List ℚ) : ∀ y ∈ x :: xs, y ≤ xs.foldl max x := by
  induction xs generalizing x with
  | nil =>
    intro y hy
    simp only [List.mem_cons, List.not_mem_nil, or_false] at hy
    simp [hy]
  | cons z zs ih =>
    intro y hy
    rw [List.foldl_cons]
    have hbase : max x z ≤ zs.foldl max (max x z) :=
      ih (max x z) (max x z) (List.mem_cons_self _ _)
    simp only [List.mem_cons] at hy
    rcases hy with h1 | h1 | h1
    · subst h1
      exact le_trans (le_max_left _ _) hbase
    · subst h1
      exact le_trans (le_max_right _ _) hbase
    · exact ih (max x z) y (List.mem_cons_of_mem _ h1)

/-- C7 counterexample: a classifier exposing the genuine probability row
[0.3, 0.7] while predicting label 0 renders status BLOCKED with
confidence 0.7, yet the probability of the returned status (class 0) is
0.3 — the reported confidence is not the probability of the returned
status. -/
theorem confidence_not_probability_of_status :
    prediction_block cexModel dummyScaler referenceReading =
      RenderOutput.result Status.BLOCKED (7 / 10) ∧
    cexModel.predict (featureValues (input_data referenceReading)) =
      Except.ok [0] ∧
    cexModel.predict_proba (featureValues (input_data referenceReading)) =
      Except.ok [[3 / 10, 7 / 10]] ∧
    [(3 : ℚ) / 10, 7 / 10].get? (Int.toNat 0) = some (3 / 10) ∧
    (7 : ℚ) / 10 ≠ 3 / 10 := by
  refine ⟨?_, rfl, rfl, rfl, by norm_num⟩
  simp only [prediction_block, cexModel, dummyScaler, pyIndex0, confidence_of,
    status_of_prediction, pyMax, List.foldl_cons, List.foldl_nil]
  norm_num [max_def]

/-- C7 (amended): when the probability call yields a nonempty row of
values in the unit interval, the rendered confidence is the maximum of
that row — an element of the row bounding every entry, hence itself in
the unit interval and an upper bound for the probability of the returned
status; it equals that probability only when the predicted label attains
the maximum, which the program does not check. -/
theorem confidence_is_max_class_probability (m : Model) (s : Scaler)
    (r : SensorReading) (scaled : List ℚ) (p : ℤ) (ls : List ℤ)
    (q : ℚ) (qs : List ℚ) (rest : List (List ℚ))
    (h1 : s.transform (input_data r) = Except.ok scaled)
    (h2 : m.predict scaled = Except.ok (p :: ls))
    (h3 : m.predict_proba scaled = Except.ok ((q :: qs) :: rest))
    (hrange : ∀ x ∈ q :: qs, 0 ≤ x ∧ x ≤ 1) :
    prediction_block m s r =
      RenderOutput.result (status_of_prediction p) (qs.foldl max q) ∧
    0 ≤ qs.foldl max q ∧ qs.foldl max q ≤ 1 ∧
    (∀ x ∈ q :: qs, x ≤ qs.foldl max q) ∧
    qs.foldl max q ∈ q :: qs ∧
    (∀ c, (q :: qs).get? p.toNat = some c → c ≤ qs.foldl max q) := by
  have hmem := foldl_max_mem q qs
  have hub := le_foldl_max q qs
  refine ⟨?_, (hrange _ hmem).1, (hrange _ hmem).2, hub, hmem, ?_⟩
  · simp [prediction_block, h1, h2, pyIndex0, confidence_of, h3, pyMax]
  · intro c hc
    exact hub c (List.get?_mem hc)

/-- C7 witness: the amended theorem applied to a classifier whose
predicted label 1 carries the probability row [0.25, 0.75]. -/
theorem confidence_is_max_class_probability_witness :
    probaModel.predict (featureValues (input_data referenceReading)) =
      Except.ok [1] ∧
    probaModel.predict_proba (featureValues (input_data referenceReading)) =
      Except.ok [[1 / 4, 3 / 4]] ∧
    prediction_block probaModel dummyScaler referenceReading =
      RenderOutput.result (status_of_prediction 1)
        ([(3 : ℚ) / 4].foldl max (1 / 4)) := by
  refine ⟨rfl, rfl, ?_⟩
  have hrange : ∀ x ∈ (1 / 4 : ℚ) :: [3 / 4], 0 ≤ x ∧ x ≤ 1 := by
    intro x hx
    rcases List.mem_cons.mp hx with rfl | hx
    · norm_num
    · rcases List.mem_cons.mp hx with rfl | hx
      · norm_num
      · simp at hx
  exact (confidence_is_max_class_probability probaModel dummyScaler
    referenceReading (featureValues (input_data referenceReading)) 1 []
    (1 / 4) [3 / 4] [] rfl rfl rfl hrange).1

end DrainGuard
